import Mathlib

/-!
Verification development for the ESP32 WiFi application core
(src/main/wifi_app.c): a shallow embedding of the message-driven
connection state machine together with theorems about its behaviour.

The embedding models:
  - the event-group bits WIFI_APP_CONNECTING_USING_SAVED_CREDS_BIT,
    WIFI_APP_CONNECTING_FROM_HTTP_SERVER_BIT and
    WIFI_APP_STA_CONNECTED_GOT_IP_BIT as booleans;
  - the retry counter g_retry_number as a natural number
    (it only ever takes values in [0, MAX_CONNECTION_RETRIES]);
  - the in-memory station configuration wifi_config and the NVS-stored
    credentials as a record field and an Option;
  - every externally visible call (driver commands, LED signals,
    HTTP-server monitor notifications, queue sends, NVS operations) as
    an element of an effect trace returned alongside the new state.

MAX_CONNECTION_RETRIES is defined in a header that is not part of the
repository snapshot, so every definition is parameterised over it
(argument maxRetries).
-/

set_option autoImplicit false

namespace WifiApp

/-- Station credentials: SSID and passphrase. -/
structure Creds where
  ssid : String
  password : String
  deriving DecidableEq

/-- The message kinds of wifi_app_message_e consumed by wifi_app_task. -/
inductive Msg where
  | loadSavedCredentials
  | startHttpServer
  | connectingFromHttpServer
  | staConnectedGotIp
  | userRequestedStaDisconnect
  | staDisconnected
  deriving DecidableEq

/-- The notifications sent to the HTTP server monitor
(http_server_monitor_send_message). -/
inductive HttpMsg where
  | wifiConnectInit
  | wifiConnectSuccess
  | wifiConnectFail
  | wifiUserDisconnect
  deriving DecidableEq

/-- Externally visible calls made by the WiFi application: driver
commands, LED signals, monitor notifications, queue sends, NVS
operations and the connected callback. -/
inductive Effect where
  | setStaConfig (c : Creds)
  | espWifiConnect
  | espWifiDisconnect
  | setModeApOnly
  | rgbServiceReady
  | rgbConnected
  | httpServerStart
  | httpMonitor (m : HttpMsg)
  | sendMessage (m : Msg)
  | nvsSave (c : Creds)
  | nvsClear
  | callbackInvoked
  deriving DecidableEq

/-- The mutable state of wifi_app.c: the three event-group bits, the
retry counter, the in-memory wifi_config station credentials, the
NVS-stored credentials, and whether a connected callback is registered. -/
structure AppState where
  usingSavedBit : Bool
  fromHttpBit : Bool
  connectedBit : Bool
  g_retry_number : Nat
  wifi_config : Creds
  storedCreds : Option Creds
  callbackSet : Bool
  deriving DecidableEq

/-- State at wifi_app_start: event group freshly created (all bits
clear), g_retry_number zero-initialised, wifi_config zeroed by memset,
with the NVS contents an arbitrary parameter. -/
def initState (stored : Option Creds) : AppState :=
  { usingSavedBit := false
    fromHttpBit := false
    connectedBit := false
    g_retry_number := 0
    wifi_config := { ssid := "", password := "" }
    storedCreds := stored
    callbackSet := false }

/-- Modelled from the spec: app_nvs_load_sta_creds (app_nvs.c is not in
the repository snapshot).  Section 6 gives the store the interface
load() returning an optional StationCredentials; the C function copies
a found credential pair into wifi_config and reports whether one was
found. -/
def app_nvs_load_sta_creds (s : AppState) : Bool × AppState :=
  match s.storedCreds with
  | some c => (true, { s with wifi_config := c })
  | none => (false, s)

/-- Modelled from the spec: app_nvs_save_sta_creds persists the current
wifi_config station credentials to storage (section 6: save). -/
def app_nvs_save_sta_creds (s : AppState) : AppState × List Effect :=
  ({ s with storedCreds := some s.wifi_config }, [Effect.nvsSave s.wifi_config])

/-- Modelled from the spec: app_nvs_clear_sta_creds clears the stored
credentials (section 6: clear). -/
def app_nvs_clear_sta_creds (s : AppState) : AppState × List Effect :=
  ({ s with storedCreds := none }, [Effect.nvsClear])

/-- wifi_app_connect_sta: push wifi_config to the driver and issue
esp_wifi_connect. -/
def wifi_app_connect_sta (s : AppState) : List Effect :=
  [Effect.setStaConfig s.wifi_config, Effect.espWifiConnect]

/-- handle_wifi_connected: snapshot the event bits, set the
connected-got-IP bit, signal the LED and the monitor, then either clear
the saved-credentials bit (snapshot had it set) or persist the current
credentials, clear the from-HTTP bit if the snapshot had it set, and
invoke the connected callback if one is registered. -/
def handle_wifi_connected (s : AppState) : AppState × List Effect :=
  let eventBits := s
  let s1 := { s with connectedBit := true }
  let base := [Effect.rgbConnected, Effect.httpMonitor HttpMsg.wifiConnectSuccess]
  let (s2, saveEffects) :=
    if eventBits.usingSavedBit then
      ({ s1 with usingSavedBit := false }, ([] : List Effect))
    else
      app_nvs_save_sta_creds s1
  let s3 :=
    if eventBits.fromHttpBit then { s2 with fromHttpBit := false } else s2
  let cbEffects :=
    if s.callbackSet then [Effect.callbackInvoked] else ([] : List Effect)
  (s3, base ++ saveEffects ++ cbEffects)

/-- handle_wifi_disconnected: snapshot the event bits; if the
saved-credentials bit was set, clear it and clear the stored
credentials; otherwise if the from-HTTP bit was set, clear it and
notify the monitor of the failure; otherwise only log.  Finally clear
the connected-got-IP bit if the snapshot had it set. -/
def handle_wifi_disconnected (s : AppState) : AppState × List Effect :=
  let eventBits := s
  let (s1, branchEffects) :=
    if eventBits.usingSavedBit then
      app_nvs_clear_sta_creds { s with usingSavedBit := false }
    else if eventBits.fromHttpBit then
      ({ s with fromHttpBit := false }, [Effect.httpMonitor HttpMsg.wifiConnectFail])
    else
      (s, ([] : List Effect))
  let s2 :=
    if eventBits.connectedBit then { s1 with connectedBit := false } else s1
  (s2, branchEffects)

/-- The message switch of wifi_app_task: one orchestrator step,
returning the new state and the trace of externally visible calls, in
program order. -/
def processMessage (maxRetries : Nat) (s : AppState) : Msg → AppState × List Effect
  | Msg.loadSavedCredentials =>
    let (found, s1) := app_nvs_load_sta_creds s
    if found then
      ({ s1 with usingSavedBit := true },
        wifi_app_connect_sta s1 ++ [Effect.sendMessage Msg.startHttpServer])
    else
      (s1, [Effect.sendMessage Msg.startHttpServer])
  | Msg.startHttpServer =>
    (s, [Effect.httpServerStart, Effect.rgbServiceReady])
  | Msg.connectingFromHttpServer =>
    ({ s with fromHttpBit := true, g_retry_number := 0 },
      wifi_app_connect_sta s ++ [Effect.httpMonitor HttpMsg.wifiConnectInit])
  | Msg.staConnectedGotIp =>
    handle_wifi_connected s
  | Msg.userRequestedStaDisconnect =>
    if s.connectedBit then
      ({ s with
          g_retry_number := maxRetries
          storedCreds := none
          connectedBit := false },
        [Effect.espWifiDisconnect, Effect.nvsClear, Effect.setModeApOnly,
          Effect.rgbServiceReady, Effect.httpMonitor HttpMsg.wifiUserDisconnect])
    else
      (s, [])
  | Msg.staDisconnected =>
    handle_wifi_disconnected s

/-- The WIFI_EVENT_STA_DISCONNECTED branch of wifi_app_event_handler:
below the retry cap, reconnect directly and increment g_retry_number;
at the cap, escalate WIFI_APP_MSG_STA_DISCONNECTED to the queue. -/
def staDisconnectedEvent (maxRetries : Nat) (s : AppState) : AppState × List Effect :=
  if s.g_retry_number < maxRetries then
    ({ s with g_retry_number := s.g_retry_number + 1 }, [Effect.espWifiConnect])
  else
    (s, [Effect.sendMessage Msg.staDisconnected])

/-- Trace of effects produced by n consecutive station-disconnected
driver events. -/
def staDisconnectTrace (maxRetries : Nat) (s : AppState) : Nat → List Effect
  | 0 => []
  | n + 1 =>
    let r := staDisconnectedEvent maxRetries s
    r.2 ++ staDisconnectTrace maxRetries r.1 n

/-- State reached from s after processing a list of queue messages. -/
def runMessages (maxRetries : Nat) (s : AppState) (ms : List Msg) : AppState :=
  ms.foldl (fun t m => (processMessage maxRetries t m).1) s

/-- An input to the WiFi application: either a queue message processed
by the orchestrator task or a station-disconnected driver event handled
on the fast path. -/
inductive Input where
  | queueMsg (m : Msg)
  | staDiscEvent
  deriving DecidableEq

/-- One input step. -/
def stepInput (maxRetries : Nat) (s : AppState) : Input → AppState
  | Input.queueMsg m => (processMessage maxRetries s m).1
  | Input.staDiscEvent => (staDisconnectedEvent maxRetries s).1

/-- State reached from s after a list of inputs. -/
def runInputs (maxRetries : Nat) (s : AppState) (is : List Input) : AppState :=
  is.foldl (stepInput maxRetries) s

/-- Whether a message kind can modify the connected-got-IP bit. -/
def mutatesConnected : Msg → Bool
  | Msg.staConnectedGotIp => true
  | Msg.staDisconnected => true
  | Msg.userRequestedStaDisconnect => true
  | _ => false

/-- The most recently processed message among the three kinds that can
modify the connected-got-IP bit. -/
def lastConnMutator (ms : List Msg) : Option Msg :=
  ms.reverse.find? mutatesConnected

/-- States reachable from an initial state by processing messages under
the sequencing discipline the code relies on: LoadSavedCredentials is
only processed while the config-service origin flag is clear, and
ConnectingFromConfigService only while the saved-credentials origin
flag is clear. -/
inductive GuardedReachable (maxRetries : Nat) : AppState → Prop where
  | init (stored : Option Creds) : GuardedReachable maxRetries (initState stored)
  | step (s : AppState) (m : Msg) (hr : GuardedReachable maxRetries s)
      (hload : m = Msg.loadSavedCredentials → s.fromHttpBit = false)
      (hhttp : m = Msg.connectingFromHttpServer → s.usingSavedBit = false) :
      GuardedReachable maxRetries ((processMessage maxRetries s m).1)

/-!  Helper lemmas shared by several theorems below. -/

/-- One station-disconnected driver event below the cap: reconnect and
increment, no queue message. -/
theorem staDisconnectedEvent_below_cap (maxRetries : Nat) (s : AppState)
    (h : s.g_retry_number < maxRetries) :
    staDisconnectedEvent maxRetries s =
      ({ s with g_retry_number := s.g_retry_number + 1 }, [Effect.espWifiConnect]) := by
  simp [staDisconnectedEvent, h]

/-- One station-disconnected driver event at the cap: escalate the
queue message, no direct reconnect. -/
theorem staDisconnectedEvent_at_cap (maxRetries : Nat) (s : AppState)
    (h : maxRetries ≤ s.g_retry_number) :
    staDisconnectedEvent maxRetries s = (s, [Effect.sendMessage Msg.staDisconnected]) := by
  simp [staDisconnectedEvent, Nat.not_lt.mpr h]

/-- With d retries of budget left, d+1 consecutive disconnect events
produce exactly d direct reconnects followed by one escalated
StaDisconnected queue message. -/
theorem staDisconnectTrace_budget (maxRetries : Nat) :
    ∀ (d : Nat) (s : AppState), s.g_retry_number + d = maxRetries →
      staDisconnectTrace maxRetries s (d + 1) =
        List.replicate d Effect.espWifiConnect ++ [Effect.sendMessage Msg.staDisconnected] := by
  intro d
  induction d with
  | zero =>
    intro s h
    simp only [Nat.add_zero] at h
    simp [staDisconnectTrace, staDisconnectedEvent_at_cap maxRetries s (Nat.le_of_eq h.symm)]
  | succ d ih =>
    intro s h
    have hlt : s.g_retry_number < maxRetries := by omega
    have hunfold : staDisconnectTrace maxRetries s (d + 1 + 1) =
        (staDisconnectedEvent maxRetries s).2 ++
          staDisconnectTrace maxRetries (staDisconnectedEvent maxRetries s).1 (d + 1) := rfl
    rw [hunfold, staDisconnectedEvent_below_cap maxRetries s hlt]
    rw [show ((({ s with g_retry_number := s.g_retry_number + 1 }, [Effect.espWifiConnect]) :
        AppState × List Effect)).1 = { s with g_retry_number := s.g_retry_number + 1 } from rfl]
    rw [ih { s with g_retry_number := s.g_retry_number + 1 } (by simp; omega)]
    simp [List.replicate_succ]

/-- The value of the connected-got-IP bit after one orchestrator step:
set by StaConnectedGotIp, cleared by StaDisconnected and by
UserRequestedStaDisconnect, untouched by everything else. -/
theorem connectedBit_processMessage (maxRetries : Nat) (s : AppState) (m : Msg) :
    (processMessage maxRetries s m).1.connectedBit =
      match m with
      | Msg.staConnectedGotIp => true
      | Msg.staDisconnected => false
      | Msg.userRequestedStaDisconnect => false
      | _ => s.connectedBit := by
  obtain ⟨u, f, c, r, w, st, cb⟩ := s
  cases m <;>
    simp [processMessage, handle_wifi_connected, handle_wifi_disconnected,
      app_nvs_load_sta_creds, app_nvs_save_sta_creds, app_nvs_clear_sta_creds] <;>
    cases u <;> cases f <;> cases c <;> cases st <;> simp

/-- The connected-got-IP bit after a run of messages is determined by
the most recent message that can modify it. -/
theorem connectedBit_runMessages (maxRetries : Nat) :
    ∀ (ms : List Msg) (s : AppState),
      (runMessages maxRetries s ms).connectedBit =
        match lastConnMutator ms with
        | some Msg.staConnectedGotIp => true
        | some _ => false
        | none => s.connectedBit := by
  intro ms
  induction ms with
  | nil => intro s; simp [runMessages, lastConnMutator]
  | cons m ms ih =>
    intro s
    have hrun : runMessages maxRetries s (m :: ms) =
        runMessages maxRetries (processMessage maxRetries s m).1 ms := by
      simp [runMessages]
    have hlast : lastConnMutator (m :: ms) =
        (lastConnMutator ms).or ([m].find? mutatesConnected) := by
      simp [lastConnMutator, List.find?_append]
    rw [hrun, ih, hlast]
    cases hl : lastConnMutator ms with
    | some m0 => cases m0 <;> simp [hl]
    | none =>
      rw [connectedBit_processMessage]
      cases m <;> simp [mutatesConnected, List.find?]

/-!  Claim theorems. -/

/-- Claim C1 counterexample: processing StaConnectedGotIp in the initial
state, where neither UsingSavedCredentials nor InitiatedFromConfigService
is set, still persists credentials to storage: the save condition in
handle_wifi_connected tests only the saved-credentials bit, so the
attempt need not have originated from the configuration service. -/
theorem gotIp_persists_without_configService_counterexample :
    (initState none).fromHttpBit = false ∧
    (initState none).usingSavedBit = false ∧
    Effect.nvsSave { ssid := "", password := "" } ∈
      (processMessage 5 (initState none) Msg.staConnectedGotIp).2 := by
  refine ⟨rfl, rfl, ?_⟩
  decide

/-- Claim C1 (amended): processing StaConnectedGotIp persists the
current credentials exactly when the snapshot taken at handler entry
has UsingSavedCredentials clear, regardless of the
InitiatedFromConfigService flag; when the snapshot has it set, no save
occurs and storage is unchanged. -/
theorem gotIp_persist_iff_usingSaved_clear (maxRetries : Nat) (s : AppState) :
    ((Effect.nvsSave s.wifi_config ∈ (processMessage maxRetries s Msg.staConnectedGotIp).2) ↔
      s.usingSavedBit = false) ∧
    (s.usingSavedBit = false →
      (processMessage maxRetries s Msg.staConnectedGotIp).1.storedCreds = some s.wifi_config) ∧
    (s.usingSavedBit = true →
      (∀ c0 : Creds, Effect.nvsSave c0 ∉ (processMessage maxRetries s Msg.staConnectedGotIp).2) ∧
      (processMessage maxRetries s Msg.staConnectedGotIp).1.storedCreds = s.storedCreds) := by
  obtain ⟨u, f, c, r, w, st, cb⟩ := s
  cases u <;> cases f <;> cases cb <;>
    simp [processMessage, handle_wifi_connected, app_nvs_save_sta_creds]

/-- Witness for the amended C1 theorem at the initial state. -/
theorem gotIp_persist_iff_usingSaved_clear_witness :
    (processMessage 5 (initState none) Msg.staConnectedGotIp).1.storedCreds =
      some (initState none).wifi_config :=
  (gotIp_persist_iff_usingSaved_clear 5 (initState none)).2.1 rfl

/-- Claim C3: starting from a retry counter of zero, MAX_CONNECTION_RETRIES
plus one consecutive station-disconnected driver events produce exactly
MAX_CONNECTION_RETRIES direct esp_wifi_connect calls followed by exactly
one escalated StaDisconnected queue message; each event below the cap
reconnects and increments without messaging, each event at the cap
messages without reconnecting. -/
theorem fast_path_retry_cap (maxRetries : Nat) (s : AppState)
    (h : s.g_retry_number = 0) :
    staDisconnectTrace maxRetries s (maxRetries + 1) =
      List.replicate maxRetries Effect.espWifiConnect ++
        [Effect.sendMessage Msg.staDisconnected] ∧
    (∀ t : AppState, t.g_retry_number < maxRetries →
      staDisconnectedEvent maxRetries t =
        ({ t with g_retry_number := t.g_retry_number + 1 }, [Effect.espWifiConnect])) ∧
    (∀ t : AppState, t.g_retry_number = maxRetries →
      staDisconnectedEvent maxRetries t = (t, [Effect.sendMessage Msg.staDisconnected])) := by
  refine ⟨staDisconnectTrace_budget maxRetries maxRetries s (by omega), ?_, ?_⟩
  · intro t ht
    exact staDisconnectedEvent_below_cap maxRetries t ht
  · intro t ht
    exact staDisconnectedEvent_at_cap maxRetries t (Nat.le_of_eq ht.symm)

/-- Witness for the C3 theorem at the initial state with a cap of 5. -/
theorem fast_path_retry_cap_witness :
    staDisconnectTrace 5 (initState none) 6 =
      List.replicate 5 Effect.espWifiConnect ++ [Effect.sendMessage Msg.staDisconnected] :=
  (fast_path_retry_cap 5 (initState none) rfl).1

/-- Claim C4 counterexample: after one fast-path retry the counter is 1;
a LoadSavedCredentials message processed with stored credentials present
then issues a connect command yet leaves the counter at 1, not 0 — the
LoadSavedCredentials handler never writes g_retry_number. -/
theorem loadSaved_keeps_retry_counter_counterexample :
    Effect.espWifiConnect ∈
      (processMessage 5
        (runInputs 5 (initState (some { ssid := "Home", password := "secret" }))
          [Input.queueMsg Msg.loadSavedCredentials, Input.staDiscEvent])
        Msg.loadSavedCredentials).2 ∧
    (processMessage 5
        (runInputs 5 (initState (some { ssid := "Home", password := "secret" }))
          [Input.queueMsg Msg.loadSavedCredentials, Input.staDiscEvent])
        Msg.loadSavedCredentials).1.g_retry_number = 1 := by
  constructor
  · decide
  · rfl

/-- Claim C4 (amended): processing ConnectingFromConfigService leaves
the retry counter equal to zero; processing LoadSavedCredentials leaves
the retry counter unchanged (it is zero at startup, the only point at
which the code sends that message). -/
theorem retry_counter_reset_behaviour (maxRetries : Nat) (s : AppState) :
    (processMessage maxRetries s Msg.connectingFromHttpServer).1.g_retry_number = 0 ∧
    (processMessage maxRetries s Msg.loadSavedCredentials).1.g_retry_number =
      s.g_retry_number := by
  constructor
  · rfl
  · cases hst : s.storedCreds <;> simp [processMessage, app_nvs_load_sta_creds, hst]

/-- Claim C5: processing UserRequestedStaDisconnect while the
connected-got-IP bit is set forces the retry counter to the cap, issues
a disconnect command, clears stored credentials, switches the radio to
AP-only mode, signals the service-ready LED, notifies the monitor of
the user disconnect and clears the connected bit; while the bit is
clear it is a no-op with no effects. -/
theorem user_disconnect_spec (maxRetries : Nat) (s : AppState) :
    (s.connectedBit = true →
      processMessage maxRetries s Msg.userRequestedStaDisconnect =
        ({ s with g_retry_number := maxRetries, storedCreds := none, connectedBit := false },
          [Effect.espWifiDisconnect, Effect.nvsClear, Effect.setModeApOnly,
            Effect.rgbServiceReady, Effect.httpMonitor HttpMsg.wifiUserDisconnect])) ∧
    (s.connectedBit = false →
      processMessage maxRetries s Msg.userRequestedStaDisconnect = (s, [])) := by
  constructor <;> intro h <;> simp [processMessage, h]

/-- Witness for the C5 theorem at a connected state. -/
theorem user_disconnect_spec_witness :
    processMessage 5 (runMessages 5 (initState none) [Msg.staConnectedGotIp])
        Msg.userRequestedStaDisconnect =
      ({ runMessages 5 (initState none) [Msg.staConnectedGotIp] with
          g_retry_number := 5, storedCreds := none, connectedBit := false },
        [Effect.espWifiDisconnect, Effect.nvsClear, Effect.setModeApOnly,
          Effect.rgbServiceReady, Effect.httpMonitor HttpMsg.wifiUserDisconnect]) :=
  (user_disconnect_spec 5 (runMessages 5 (initState none) [Msg.staConnectedGotIp])).1 rfl

/-- Claim C6: every processed StaDisconnected message resolves to
exactly one of three branches decided by the snapshot at handler entry:
saved-credentials set — clear the flag and clear storage; otherwise
config-service set — clear the flag and notify the monitor of the
failure; otherwise — log only with no effects.  In each case the
connected bit ends up clear and nothing outside the branch occurs. -/
theorem sta_disconnected_three_branches (maxRetries : Nat) (s : AppState) :
    (s.usingSavedBit = true →
      processMessage maxRetries s Msg.staDisconnected =
        ({ s with usingSavedBit := false, storedCreds := none, connectedBit := false },
          [Effect.nvsClear])) ∧
    (s.usingSavedBit = false → s.fromHttpBit = true →
      processMessage maxRetries s Msg.staDisconnected =
        ({ s with fromHttpBit := false, connectedBit := false },
          [Effect.httpMonitor HttpMsg.wifiConnectFail])) ∧
    (s.usingSavedBit = false → s.fromHttpBit = false →
      processMessage maxRetries s Msg.staDisconnected =
        ({ s with connectedBit := false }, [])) := by
  obtain ⟨u, f, c, r, w, st, cb⟩ := s
  refine ⟨?_, ?_, ?_⟩ <;> intros <;> subst_vars <;> cases c <;>
    simp [processMessage, handle_wifi_disconnected, app_nvs_clear_sta_creds]

/-- Witness for the C6 theorem at a state connecting from saved
credentials. -/
theorem sta_disconnected_three_branches_witness :
    processMessage 5
        (runMessages 5 (initState (some { ssid := "Home", password := "secret" }))
          [Msg.loadSavedCredentials]) Msg.staDisconnected =
      ({ runMessages 5 (initState (some { ssid := "Home", password := "secret" }))
            [Msg.loadSavedCredentials] with
          usingSavedBit := false, storedCreds := none, connectedBit := false },
        [Effect.nvsClear]) :=
  (sta_disconnected_three_branches 5 _).1 rfl

/-- Claim C8: processing LoadSavedCredentials loads from storage; with
credentials present it pushes them to the driver, issues a connect
command and sets the saved-credentials bit; with no credentials the
state is unchanged and no connect command is issued; in both cases a
StartHttpServer message is enqueued. -/
theorem load_saved_credentials_spec (maxRetries : Nat) (s : AppState) :
    (∀ c0 : Creds, s.storedCreds = some c0 →
      processMessage maxRetries s Msg.loadSavedCredentials =
        ({ s with wifi_config := c0, usingSavedBit := true },
          [Effect.setStaConfig c0, Effect.espWifiConnect,
            Effect.sendMessage Msg.startHttpServer])) ∧
    (s.storedCreds = none →
      processMessage maxRetries s Msg.loadSavedCredentials =
        (s, [Effect.sendMessage Msg.startHttpServer])) := by
  constructor
  · intro c0 hc
    simp [processMessage, app_nvs_load_sta_creds, hc, wifi_app_connect_sta]
  · intro hc
    simp [processMessage, app_nvs_load_sta_creds, hc]

/-- Witness for the C8 theorem with stored credentials present. -/
theorem load_saved_credentials_spec_witness :
    processMessage 5 (initState (some { ssid := "Home", password := "secret" }))
        Msg.loadSavedCredentials =
      ({ initState (some { ssid := "Home", password := "secret" }) with
          wifi_config := { ssid := "Home", password := "secret" }, usingSavedBit := true },
        [Effect.setStaConfig { ssid := "Home", password := "secret" },
          Effect.espWifiConnect, Effect.sendMessage Msg.startHttpServer]) :=
  (load_saved_credentials_spec 5 _).1 { ssid := "Home", password := "secret" } rfl

/-- Claim C9: a StaDisconnected resolved in the config-service branch
leaves the stored credentials and the in-memory credential slot
unchanged, and performs no storage clear. -/
theorem config_service_disconnect_frame (maxRetries : Nat) (s : AppState)
    (h1 : s.usingSavedBit = false) (h2 : s.fromHttpBit = true) :
    (processMessage maxRetries s Msg.staDisconnected).1.storedCreds = s.storedCreds ∧
    (processMessage maxRetries s Msg.staDisconnected).1.wifi_config = s.wifi_config ∧
    Effect.nvsClear ∉ (processMessage maxRetries s Msg.staDisconnected).2 := by
  obtain ⟨u, f, c, r, w, st, cb⟩ := s
  cases c <;> simp_all [processMessage, handle_wifi_disconnected]

/-- Witness for the C9 theorem at a state connecting from the
configuration service. -/
theorem config_service_disconnect_frame_witness :
    (processMessage 5 (runMessages 5 (initState none) [Msg.connectingFromHttpServer])
          Msg.staDisconnected).1.storedCreds =
        (runMessages 5 (initState none) [Msg.connectingFromHttpServer]).storedCreds ∧
      (processMessage 5 (runMessages 5 (initState none) [Msg.connectingFromHttpServer])
            Msg.staDisconnected).1.wifi_config =
        (runMessages 5 (initState none) [Msg.connectingFromHttpServer]).wifi_config ∧
      Effect.nvsClear ∉
        (processMessage 5 (runMessages 5 (initState none) [Msg.connectingFromHttpServer])
          Msg.staDisconnected).2 :=
  config_service_disconnect_frame 5 _ rfl rfl

/-- Claim C10: processing StaConnectedGotIp leaves the retry counter
unchanged; consequently with k retries already consumed only
MAX_CONNECTION_RETRIES minus k direct reconnects remain before a later
escalation. -/
theorem gotIp_preserves_retry_counter (maxRetries : Nat) (s : AppState) :
    (processMessage maxRetries s Msg.staConnectedGotIp).1.g_retry_number =
      s.g_retry_number ∧
    (∀ d : Nat, s.g_retry_number + d = maxRetries →
      staDisconnectTrace maxRetries
          (processMessage maxRetries s Msg.staConnectedGotIp).1 (d + 1) =
        List.replicate d Effect.espWifiConnect ++
          [Effect.sendMessage Msg.staDisconnected]) := by
  have hframe : (processMessage maxRetries s Msg.staConnectedGotIp).1.g_retry_number =
      s.g_retry_number := by
    obtain ⟨u, f, c, r, w, st, cb⟩ := s
    cases u <;> cases f <;>
      simp [processMessage, handle_wifi_connected, app_nvs_save_sta_creds]
  exact ⟨hframe, fun d hd =>
    staDisconnectTrace_budget maxRetries d _ (by rw [hframe]; exact hd)⟩

/-- Witness for the C10 theorem at the initial state. -/
theorem gotIp_preserves_retry_counter_witness :
    staDisconnectTrace 5 (processMessage 5 (initState none) Msg.staConnectedGotIp).1 6 =
      List.replicate 5 Effect.espWifiConnect ++ [Effect.sendMessage Msg.staDisconnected] :=
  (gotIp_preserves_retry_counter 5 (initState none)).2 5 rfl

/-- Claim C2 counterexample: from an initial state with stored
credentials, processing LoadSavedCredentials and then
ConnectingFromConfigService leaves both origin flags set at once —
neither handler checks or clears the other origin flag. -/
theorem both_origin_flags_reachable_counterexample :
    (runMessages 5 (initState (some { ssid := "Home", password := "secret" }))
        [Msg.loadSavedCredentials, Msg.connectingFromHttpServer]).usingSavedBit = true ∧
    (runMessages 5 (initState (some { ssid := "Home", password := "secret" }))
        [Msg.loadSavedCredentials, Msg.connectingFromHttpServer]).fromHttpBit = true := by
  constructor <;> rfl

/-- Claim C2 (amended): at most one origin flag is set in every state
reachable under the sequencing discipline the code relies on
(LoadSavedCredentials only processed while the config-service flag is
clear, ConnectingFromConfigService only while the saved-credentials
flag is clear). -/
theorem origin_flags_mutually_exclusive_guarded (maxRetries : Nat) (s : AppState)
    (h : GuardedReachable maxRetries s) :
    ¬(s.usingSavedBit = true ∧ s.fromHttpBit = true) := by
  induction h with
  | init stored => simp [initState]
  | step s m hr hload hhttp ih =>
    cases m with
    | loadSavedCredentials =>
      have hf : s.fromHttpBit = false := hload rfl
      cases hst : s.storedCreds with
      | some c0 => simp [processMessage, app_nvs_load_sta_creds, hst, hf]
      | none => simp [processMessage, app_nvs_load_sta_creds, hst, hf]
    | startHttpServer =>
      simpa [processMessage] using ih
    | connectingFromHttpServer =>
      have hu : s.usingSavedBit = false := hhttp rfl
      simp [processMessage, hu]
    | staConnectedGotIp =>
      obtain ⟨u, f, c, r, w, st, cb⟩ := s
      cases u <;> cases f <;>
        simp [processMessage, handle_wifi_connected, app_nvs_save_sta_creds]
    | userRequestedStaDisconnect =>
      obtain ⟨u, f, c, r, w, st, cb⟩ := s
      cases c <;> simp [processMessage] <;> simpa using ih
    | staDisconnected =>
      obtain ⟨u, f, c, r, w, st, cb⟩ := s
      cases u <;> cases f <;> cases c <;>
        simp [processMessage, handle_wifi_disconnected, app_nvs_clear_sta_creds]

/-- Witness for the amended C2 theorem one guarded step from the
initial state. -/
theorem origin_flags_mutually_exclusive_guarded_witness :
    ¬((processMessage 5 (initState (some { ssid := "Home", password := "secret" }))
          Msg.loadSavedCredentials).1.usingSavedBit = true ∧
      (processMessage 5 (initState (some { ssid := "Home", password := "secret" }))
          Msg.loadSavedCredentials).1.fromHttpBit = true) :=
  origin_flags_mutually_exclusive_guarded 5 _
    (GuardedReachable.step (initState (some { ssid := "Home", password := "secret" }))
      Msg.loadSavedCredentials
      (GuardedReachable.init (some { ssid := "Home", password := "secret" }))
      (fun _ => rfl) (fun _ => rfl))

/-- Claim C7: the connected-got-IP bit is clear at startup, and in any
state reached by a sequence of processed messages it is set only if the
most recent message among StaConnectedGotIp, StaDisconnected and
UserRequestedStaDisconnect was StaConnectedGotIp. -/
theorem connected_bit_temporal (maxRetries : Nat) (stored : Option Creds)
    (ms : List Msg) :
    (initState stored).connectedBit = false ∧
    ((runMessages maxRetries (initState stored) ms).connectedBit = true →
      lastConnMutator ms = some Msg.staConnectedGotIp) := by
  refine ⟨rfl, ?_⟩
  intro h
  rw [connectedBit_runMessages] at h
  cases hl : lastConnMutator ms with
  | none => rw [hl] at h; simp [initState] at h
  | some m0 => rw [hl] at h; cases m0 <;> simp_all

/-- Witness for the C7 theorem on the singleton StaConnectedGotIp run. -/
theorem connected_bit_temporal_witness :
    lastConnMutator [Msg.staConnectedGotIp] = some Msg.staConnectedGotIp :=
  (connected_bit_temporal 5 none [Msg.staConnectedGotIp]).2 rfl

end WifiApp
